import Mathlib

/-!
Verification of the weather-dashboard front-end (src/app.js) against its
natural-language specification.  The JavaScript is shallowly embedded:

* pure helpers (`weatherCodeToText`, `makeIconImg`, `Math.round`,
  `String.prototype.trim`) become Lean functions;
* the three event handlers (form submit, geolocation button, unit toggle)
  become total state-transition functions.  Network I/O is abstracted by
  passing the response of each `fetch` (or a transport error) as an
  explicit argument; every network request the handler issues is recorded
  in an output list of `NetworkCall`s;
* the DOM regions touched by the handlers (error line, current panel,
  forecast panel, the geolocation button) are fields of `DashState`;
  `innerHTML = s` assignments become `PanelContent.text s`, and the two
  renderers produce structured view-models (`RenderedCurrent`,
  `DayCard`) capturing exactly the data the source interpolates into its
  HTML templates.  JavaScript out-of-range array reads (which yield
  `undefined`) are modelled with `Option`.
-/

/-- JS `Math.round`: round half toward positive infinity. -/
def jsRound (q : ℚ) : Int := (q + 1/2).floor

/-- Code points removed by JS `String.prototype.trim` (WhiteSpace and
LineTerminator productions). -/
def jsWhitespaceCodes : List Nat :=
  [9, 10, 11, 12, 13, 32, 160, 0x1680,
   0x2000, 0x2001, 0x2002, 0x2003, 0x2004, 0x2005, 0x2006, 0x2007,
   0x2008, 0x2009, 0x200A, 0x2028, 0x2029, 0x202F, 0x205F, 0x3000, 0xFEFF]

/-- Whether a character is JS whitespace. -/
def jsWhitespace (c : Char) : Bool := jsWhitespaceCodes.contains c.toNat

/-- JS `String.prototype.trim`: strip leading and trailing whitespace. -/
def jsTrim (s : String) : String :=
  String.mk (((s.data.dropWhile jsWhitespace).reverse.dropWhile jsWhitespace).reverse)

/-- The documented Open-Meteo weather codes (the keys of the `map` object
in `weatherCodeToText`, src/app.js lines 267-296). -/
def knownCodes : List Int :=
  [0, 1, 2, 3, 45, 48, 51, 53, 55, 56, 57, 61, 63, 65, 66, 67,
   71, 73, 75, 77, 80, 81, 82, 85, 86, 95, 96, 99]

/-- `weatherCodeToText` (src/app.js lines 266-298): object lookup with the
`?? placeholder` fallback, embedded as a decision chain over the keys. -/
def weatherCodeToText (code : Int) : String :=
  if code = 0 then "Clear sky"
  else if code = 1 then "Mainly clear"
  else if code = 2 then "Partly cloudy"
  else if code = 3 then "Overcast"
  else if code = 45 then "Fog"
  else if code = 48 then "Depositing rime fog"
  else if code = 51 then "Light drizzle"
  else if code = 53 then "Moderate drizzle"
  else if code = 55 then "Dense drizzle"
  else if code = 56 then "Freezing drizzle"
  else if code = 57 then "Freezing drizzle (dense)"
  else if code = 61 then "Slight rain"
  else if code = 63 then "Moderate rain"
  else if code = 65 then "Heavy rain"
  else if code = 66 then "Freezing rain (light)"
  else if code = 67 then "Freezing rain (heavy)"
  else if code = 71 then "Slight snow"
  else if code = 73 then "Moderate snow"
  else if code = 75 then "Heavy snow"
  else if code = 77 then "Snow grains"
  else if code = 80 then "Rain showers (slight)"
  else if code = 81 then "Rain showers (moderate)"
  else if code = 82 then "Rain showers (violent)"
  else if code = 85 then "Snow showers (slight)"
  else if code = 86 then "Snow showers (heavy)"
  else if code = 95 then "Thunderstorm"
  else if code = 96 then "Thunderstorm with slight hail"
  else if code = 99 then "Thunderstorm with heavy hail"
  else "—"

/-- The generic fallback glyph `makeIconImg` starts from (src/app.js line 310). -/
def fallbackGlyph : String := "🌡️"

/-- The per-family representative glyphs produced by the branches of
`makeIconImg` (src/app.js lines 311-319). -/
def familyGlyphs : List String :=
  ["☀️", "🌙", "⛅", "☁️", "🌫️", "🌦️", "🌧️", "🌧️❄️", "❄️", "⛈️"]

/-- `makeIconImg` (src/app.js lines 308-324), reduced to the emoji it puts
in the span: a `let emoji = fallback` followed by an if/else-if chain of
`Array.prototype.includes` tests. -/
def makeIconImg (code : Int) (isDay : Bool) : String :=
  if code = 0 then (if isDay then "☀️" else "🌙")
  else if code = 1 ∨ code = 2 then "⛅"
  else if code = 3 then "☁️"
  else if code = 45 ∨ code = 48 then "🌫️"
  else if code = 51 ∨ code = 53 ∨ code = 55 then "🌦️"
  else if code = 61 ∨ code = 63 ∨ code = 65 ∨ code = 80 ∨ code = 81 ∨ code = 82 then "🌧️"
  else if code = 66 ∨ code = 67 then "🌧️❄️"
  else if code = 71 ∨ code = 73 ∨ code = 75 ∨ code = 77 ∨ code = 85 ∨ code = 86 then "❄️"
  else if code = 95 ∨ code = 96 ∨ code = 99 then "⛈️"
  else fallbackGlyph

/-- A resolved location (the object built by `geocodeCity`, src/app.js
line 149, or synthesized in the geolocation handler, line 91). -/
structure Loc where
  name : String
  country : String
  latitude : ℚ
  longitude : ℚ
deriving DecidableEq

/-- One result entry of the geocoding API's JSON. -/
structure GeoResult where
  name : String
  country : String
  latitude : ℚ
  longitude : ℚ
deriving DecidableEq

/-- The geocoding fetch response: HTTP status (`ok`/`status`) plus the
parsed JSON, whose `results` field may be absent. -/
structure GeoResponse where
  ok : Bool
  status : Nat
  results : Option (List GeoResult)
deriving DecidableEq

/-- `geocodeCity` (src/app.js lines 142-150) applied to an already-arrived
response: throw on non-success status, `null` on an absent or empty
`results` list, otherwise the first result. -/
def geocodeCity (resp : GeoResponse) : Except String (Option Loc) :=
  if resp.ok = false then Except.error ("geocoding HTTP " ++ toString resp.status)
  else
    match resp.results with
    | none => Except.ok none
    | some [] => Except.ok none
    | some (r :: _) => Except.ok (some ⟨r.name, r.country, r.latitude, r.longitude⟩)

/-- `geocodeCity` including the transport layer: `Except.error` on the left
of the argument models `fetch` itself rejecting. -/
def geocodeCityRun (net : Except String GeoResponse) : Except String (Option Loc) :=
  match net with
  | Except.error e => Except.error e
  | Except.ok resp => geocodeCity resp

/-- The `current_weather` object of the forecast response. -/
structure CurrentWeather where
  temperature : ℚ
  windspeed : ℚ
  weathercode : Int
  is_day : Int
  time : String
deriving DecidableEq

/-- The `daily` object of the forecast response: parallel sequences; the
`precipitation_probability_max` field may be absent (the source reads it
with optional chaining). -/
structure Daily where
  time : List String
  temperature_2m_max : List ℚ
  temperature_2m_min : List ℚ
  weathercode : List Int
  precipitation_probability_max : Option (List ℚ)
deriving DecidableEq

/-- The parsed forecast JSON used by the renderers. -/
structure WeatherData where
  current_weather : CurrentWeather
  daily : Daily
deriving DecidableEq

/-- The weather fetch response: HTTP status plus parsed JSON. -/
structure WeatherResponse where
  ok : Bool
  status : Nat
  json : WeatherData
deriving DecidableEq

/-- `fetchWeather` (src/app.js lines 159-177) applied to the arrived
response (or a transport error): throw on transport failure or
non-success status, otherwise return the JSON. -/
def fetchWeatherResult (net : Except String WeatherResponse) : Except String WeatherData :=
  match net with
  | Except.error e => Except.error e
  | Except.ok resp =>
      if resp.ok = false then Except.error ("weather HTTP " ++ toString resp.status)
      else Except.ok resp.json

/-- A network request issued by a handler (`fetch` in `geocodeCity`, and
`fetch` in `fetchWeather` with the query parameters that vary per call). -/
inductive NetworkCall where
  | geocode (name : String)
  | weather (latitude longitude : ℚ) (temperature_unit : String)
deriving DecidableEq

/-- View-model of the "Current" panel: the data `renderCurrent`
(src/app.js lines 195-217) interpolates into its HTML template. -/
structure RenderedCurrent where
  name : String
  country : String
  temp : Int
  unit : String
  desc : String
  icon : String
  wind : Int
  time : String
deriving DecidableEq

/-- `renderCurrent` (src/app.js lines 195-217) as a view-model builder. -/
def renderCurrent (loc : Loc) (data : WeatherData) (useF : Bool) : RenderedCurrent :=
  { name := loc.name
    country := loc.country
    temp := jsRound data.current_weather.temperature
    unit := if useF then "°F" else "°C"
    desc := weatherCodeToText data.current_weather.weathercode
    icon := makeIconImg data.current_weather.weathercode (data.current_weather.is_day == 1)
    wind := jsRound data.current_weather.windspeed
    time := data.current_weather.time }

/-- View-model of one forecast day-card (src/app.js lines 233-255).
Fields read past the end of a daily sequence are `none` (JS `undefined`);
`precip` is also `none` when the precipitation sequence is absent, in
which case the source omits the line (`Number.isFinite` guard). -/
structure DayCard where
  dateStr : String
  desc : String
  hi : Option Int
  lo : Option Int
  unit : String
  precip : Option ℚ
  icon : String
deriving DecidableEq

/-- The body of the `renderForecast` loop at index `i`.  JS semantics of
out-of-range reads: `Math.round(undefined)` is NaN and
`map[undefined]`/`[..].includes(undefined)` select the fallbacks, so the
`Option`-typed reads feed the same fallbacks the source would produce. -/
def mkDayCard (d : Daily) (useF : Bool) (i : Nat) : DayCard :=
  { dateStr := (d.time.get? i).getD ""
    desc := match d.weathercode.get? i with
            | some c => weatherCodeToText c
            | none => "—"
    hi := (d.temperature_2m_max.get? i).map jsRound
    lo := (d.temperature_2m_min.get? i).map jsRound
    unit := if useF then "°F" else "°C"
    precip := d.precipitation_probability_max.bind (fun p => p.get? i)
    icon := match d.weathercode.get? i with
            | some c => makeIconImg c true
            | none => fallbackGlyph }

/-- The indices the `renderForecast` loop iterates over (src/app.js
line 233): `0 ≤ i < min(5, d.time.length)`. -/
def renderForecastIndices (d : Daily) : List Nat :=
  List.range (min 5 d.time.length)

/-- `renderForecast` (src/app.js lines 224-258) as a list of day-card
view-models, one per loop iteration. -/
def renderForecastCards (d : Daily) (useF : Bool) : List DayCard :=
  (renderForecastIndices d).map (mkDayCard d useF)

/-- Length of the shortest of the parallel daily sequences (counting the
precipitation sequence only when it is present). -/
def dailyMinLen (d : Daily) : Nat :=
  min d.time.length
    (min d.temperature_2m_max.length
      (min d.temperature_2m_min.length
        (match d.precipitation_probability_max with
         | some p => min d.weathercode.length p.length
         | none => d.weathercode.length)))

/-- The spec's data-model invariant: all daily sequences have equal
length (Boolean so it can be decided on concrete responses). -/
def dailyEqualLensB (d : Daily) : Bool :=
  (d.temperature_2m_max.length == d.time.length)
  && (d.temperature_2m_min.length == d.time.length)
  && (d.weathercode.length == d.time.length)
  && (match d.precipitation_probability_max with
      | some p => p.length == d.time.length
      | none => true)

/-- Content of a DOM display region: either a plain `innerHTML` string or
the structured output of one of the two renderers. -/
inductive PanelContent where
  | text (s : String)
  | currentPanel (r : RenderedCurrent)
  | forecastPanel (cards : List DayCard)
deriving DecidableEq

/-- The mutable state the handlers touch: the city input's value, the
error line, the two display regions, the module-level `lastLocation`
variable, the unit checkbox, and the geolocation button. -/
structure DashState where
  inputValue : String
  errorText : String
  current : PanelContent
  forecast : PanelContent
  lastLocation : Option Loc
  unitChecked : Bool
  geoBtnDisabled : Bool
  geoBtnLabel : String
deriving DecidableEq

/-- The `catch` block shared verbatim by the submit handler (src/app.js
lines 60-65) and the unit-toggle handler (lines 128-133). -/
def catchFetchError (s : DashState) : DashState :=
  { s with current := PanelContent.text ""
           forecast := PanelContent.text ""
           errorText := "Something went wrong fetching weather." }

/-- The in-progress text the submit handler writes after geocoding
succeeds (src/app.js line 50): the comma is unconditional there. -/
def submitFetchingText (loc : Loc) : String :=
  "Location: " ++ loc.name ++ ", " ++ loc.country ++ "<br>Fetching weather…"

/-- The in-progress text of the unit-toggle handler (src/app.js line 119):
the comma and country appear only when the country is truthy (non-empty). -/
def toggleFetchingText (loc : Loc) : String :=
  "Location: " ++ loc.name
    ++ (if loc.country = "" then "" else ", " ++ loc.country)
    ++ "<br>Fetching weather…"

/-- The search-form submit handler (src/app.js lines 30-66).  The two
network responses are passed in; the calls the handler issues are
returned alongside the final state. -/
def submitHandler (st : DashState) (geoNet : Except String GeoResponse)
    (wxNet : Except String WeatherResponse) : DashState × List NetworkCall :=
  let city := jsTrim st.inputValue
  if city = "" then (st, [])
  else
    let st1 := { st with errorText := ""
                         current := PanelContent.text "Looking up location…"
                         forecast := PanelContent.text "" }
    match geocodeCityRun geoNet with
    | Except.error _ => (catchFetchError st1, [NetworkCall.geocode city])
    | Except.ok none =>
        ({ st1 with current := PanelContent.text ""
                    errorText := "City not found. Try again." },
         [NetworkCall.geocode city])
    | Except.ok (some loc) =>
        let st2 := { st1 with lastLocation := some loc
                              current := PanelContent.text (submitFetchingText loc) }
        let useF := st.unitChecked
        let unitParam := if useF then "fahrenheit" else "celsius"
        match fetchWeatherResult wxNet with
        | Except.error _ =>
            (catchFetchError st2,
             [NetworkCall.geocode city,
              NetworkCall.weather loc.latitude loc.longitude unitParam])
        | Except.ok data =>
            ({ st2 with current := PanelContent.currentPanel (renderCurrent loc data useF)
                        forecast := PanelContent.forecastPanel (renderForecastCards data.daily useF) },
             [NetworkCall.geocode city,
              NetworkCall.weather loc.latitude loc.longitude unitParam])

/-- The unit-toggle change handler (src/app.js lines 115-134).
`st.unitChecked` is the checkbox's value after the change (the DOM
updates it before the event fires). -/
def unitToggleHandler (st : DashState) (wxNet : Except String WeatherResponse) :
    DashState × List NetworkCall :=
  match st.lastLocation with
  | none => (st, [])
  | some loc =>
      let st1 := { st with errorText := ""
                           current := PanelContent.text (toggleFetchingText loc)
                           forecast := PanelContent.text "" }
      let useF := st.unitChecked
      let unitParam := if useF then "fahrenheit" else "celsius"
      match fetchWeatherResult wxNet with
      | Except.error _ =>
          (catchFetchError st1,
           [NetworkCall.weather loc.latitude loc.longitude unitParam])
      | Except.ok data =>
          ({ st1 with current := PanelContent.currentPanel (renderCurrent loc data useF)
                      forecast := PanelContent.forecastPanel (renderForecastCards data.daily useF) },
           [NetworkCall.weather loc.latitude loc.longitude unitParam])

/-- Outcome of the platform geolocation request: either the success
callback fires with coordinates (and then the weather fetch's network
outcome decides the rest), or the error callback fires with an optional
message (permission denial, unavailability, or the 10-second timeout). -/
inductive GeoOutcome where
  | position (latitude longitude : ℚ) (wxNet : Except String WeatherResponse)
  | failure (message : Option String)

/-- The geolocation-button click handler (src/app.js lines 75-109),
including the `finally` restoration of the button in the success callback
and the explicit restoration in the error callback. -/
def geoBtnHandler (st : DashState) (supported : Bool) (outcome : GeoOutcome) :
    DashState × List NetworkCall :=
  if supported = false then
    ({ st with errorText := "Geolocation is not supported by your browser." }, [])
  else
    let st1 := { st with errorText := ""
                         geoBtnDisabled := true
                         geoBtnLabel := "Locating…" }
    match outcome with
    | GeoOutcome.position lat lon wxNet =>
        let useF := st1.unitChecked
        let unitParam := if useF then "fahrenheit" else "celsius"
        match fetchWeatherResult wxNet with
        | Except.ok data =>
            let loc : Loc := ⟨"Your location", "", lat, lon⟩
            ({ st1 with lastLocation := some loc
                        current := PanelContent.currentPanel (renderCurrent loc data useF)
                        forecast := PanelContent.forecastPanel (renderForecastCards data.daily useF)
                        geoBtnDisabled := false
                        geoBtnLabel := "Use my location" },
             [NetworkCall.weather lat lon unitParam])
        | Except.error _ =>
            ({ st1 with errorText := "Could not fetch weather for your location."
                        geoBtnDisabled := false
                        geoBtnLabel := "Use my location" },
             [NetworkCall.weather lat lon unitParam])
    | GeoOutcome.failure msg =>
        ({ st1 with errorText := match msg with
                                 | some m => if m = "" then "Permission denied or unavailable." else m
                                 | none => "Permission denied or unavailable."
                    geoBtnDisabled := false
                    geoBtnLabel := "Use my location" }, [])

/-! Concrete fixtures used by witnesses and counterexamples. -/

/-- A well-formed seven-day daily block (all sequences of length 7). -/
def sevenDayDaily : Daily :=
  { time := ["2026-01-01", "2026-01-02", "2026-01-03", "2026-01-04",
             "2026-01-05", "2026-01-06", "2026-01-07"]
    temperature_2m_max := [10, 11, 12, 13, 14, 15, 16]
    temperature_2m_min := [1, 2, 3, 4, 5, 6, 7]
    weathercode := [0, 1, 2, 3, 45, 61, 95]
    precipitation_probability_max := some [0, 10, 20, 30, 40, 50, 60] }

/-- A ragged daily block: a one-entry time sequence but empty value
sequences (mismatched lengths the upstream API could in principle send). -/
def raggedDaily : Daily :=
  { time := ["2026-01-01"]
    temperature_2m_max := []
    temperature_2m_min := []
    weathercode := []
    precipitation_probability_max := none }

/-- Sample current conditions (18.4 degrees, wind 12, partly cloudy, day). -/
def sampleCurrent : CurrentWeather :=
  { temperature := 184/10, windspeed := 12, weathercode := 2, is_day := 1
    time := "2026-01-01T12:00" }

/-- Sample parsed forecast JSON. -/
def sampleWeatherData : WeatherData :=
  { current_weather := sampleCurrent, daily := sevenDayDaily }

/-- A successful weather response. -/
def okWeatherResponse : WeatherResponse :=
  { ok := true, status := 200, json := sampleWeatherData }

/-- A non-success weather response (HTTP 500). -/
def failedWeatherResponse : WeatherResponse :=
  { ok := false, status := 500, json := sampleWeatherData }

/-- A successful geocode response whose results list is empty. -/
def emptyGeoResponse : GeoResponse :=
  { ok := true, status := 200, results := some [] }

/-- A successful geocode response resolving Paris. -/
def parisGeoResponse : GeoResponse :=
  { ok := true, status := 200
    results := some [{ name := "Paris", country := "France"
                       latitude := 4886/100, longitude := 235/100 }] }

/-- The location `geocodeCity` extracts from `parisGeoResponse`. -/
def locParis : Loc :=
  { name := "Paris", country := "France", latitude := 4886/100, longitude := 235/100 }

/-- An idle dashboard state with "Paris" typed into the search box. -/
def stParis : DashState :=
  { inputValue := "Paris"
    errorText := ""
    current := PanelContent.text ""
    forecast := PanelContent.text ""
    lastLocation := none
    unitChecked := false
    geoBtnDisabled := false
    geoBtnLabel := "Use my location" }

/-- A state with a whitespace-only search box. -/
def stBlank : DashState :=
  { stParis with inputValue := "   " }

/-- A state in which Paris has been resolved and the unit toggle has just
been switched to Fahrenheit. -/
def stWithLoc : DashState :=
  { stParis with inputValue := "", lastLocation := some locParis, unitChecked := true }

/-! Claims. -/

/-- C1: `weatherCodeToText` is a total function that returns a
non-placeholder description for every code in the documented set and the
placeholder "—" for every other integer. -/
theorem weatherCodeToText_known_unknown :
    (∀ c ∈ knownCodes, weatherCodeToText c ≠ "—")
    ∧ (∀ c : Int, c ∉ knownCodes → weatherCodeToText c = "—") := by
  constructor
  · decide
  · intro c h
    simp only [knownCodes, List.mem_cons, List.not_mem_nil, or_false, not_or] at h
    obtain ⟨h0, h1, h2, h3, h45, h48, h51, h53, h55, h56, h57, h61, h63, h65,
            h66, h67, h71, h73, h75, h77, h80, h81, h82, h85, h86, h95, h96, h99⟩ := h
    simp [weatherCodeToText, h0, h1, h2, h3, h45, h48, h51, h53, h55, h56, h57,
          h61, h63, h65, h66, h67, h71, h73, h75, h77, h80, h81, h82, h85, h86,
          h95, h96, h99]

/-- Witness for C1: code 0 is described, code 42 gets the placeholder. -/
theorem weatherCodeToText_known_unknown_witness :
    weatherCodeToText 0 ≠ "—" ∧ weatherCodeToText 42 = "—" :=
  ⟨weatherCodeToText_known_unknown.1 0 (by decide),
   weatherCodeToText_known_unknown.2 42 (by decide)⟩

/-- C7 counterexample: codes 56 and 57 are in the documented set, yet
`makeIconImg` returns the generic fallback glyph for them (they appear in
no `includes` branch), so the claim "never the generic fallback glyph"
fails as stated. -/
theorem makeIconImg_56_57_fallback :
    ((56 : Int) ∈ knownCodes) ∧ ((57 : Int) ∈ knownCodes)
    ∧ makeIconImg 56 true = fallbackGlyph ∧ makeIconImg 56 false = fallbackGlyph
    ∧ makeIconImg 57 true = fallbackGlyph ∧ makeIconImg 57 false = fallbackGlyph
    ∧ fallbackGlyph ∉ familyGlyphs := by decide

/-- C7 (amended): for every documented code other than 56 and 57 and both
values of `isDay`, `makeIconImg` returns one of the family glyphs, never
the generic fallback; codes 56 and 57 fall through to the fallback. -/
theorem makeIconImg_families :
    (∀ c ∈ knownCodes, c ≠ 56 → c ≠ 57 →
      ∀ d : Bool, makeIconImg c d ∈ familyGlyphs ∧ makeIconImg c d ≠ fallbackGlyph)
    ∧ (∀ d : Bool, makeIconImg 56 d = fallbackGlyph ∧ makeIconImg 57 d = fallbackGlyph) := by
  decide

/-- Witness for C7 (amended): thunderstorm code 95 gets a family glyph. -/
theorem makeIconImg_families_witness :
    makeIconImg 95 true ∈ familyGlyphs ∧ makeIconImg 95 true ≠ fallbackGlyph :=
  makeIconImg_families.1 95 (by decide) (by decide) (by decide) true

/-- C8: `makeIconImg` returns the night glyph exactly when the code is 0
and `isDay` is false, and for every non-zero code the glyph does not
depend on `isDay`. -/
theorem makeIconImg_night_only_clear (c : Int) (d : Bool) :
    (makeIconImg c d = "🌙" ↔ (c = 0 ∧ d = false))
    ∧ (c ≠ 0 → makeIconImg c true = makeIconImg c false) := by
  by_cases hc : c = 0
  · subst hc
    refine ⟨?_, fun h => absurd rfl h⟩
    cases d <;> decide
  · refine ⟨?_, fun _ => ?_⟩
    · have hrhs : ¬(c = 0 ∧ d = false) := fun h => hc h.1
      simp only [makeIconImg, if_neg hc, hrhs, iff_false]
      intro h
      repeat' split at h
      all_goals exact absurd h (by decide)
    · simp only [makeIconImg, if_neg hc]

/-- Witness for C8: for code 3 (overcast) the glyph ignores `isDay`. -/
theorem makeIconImg_night_only_clear_witness :
    makeIconImg 3 true = makeIconImg 3 false :=
  (makeIconImg_night_only_clear 3 true).2 (by decide)

/-- C2 counterexample: the `renderForecast` loop is bounded by
`d.time.length` alone, so on a ragged response with one time entry and
empty value sequences it still renders one card and reads index 0 of the
empty `temperature_2m_max` sequence — an index past the end of the
shortest parallel sequence (the read yields JS `undefined`, here `none`). -/
theorem renderForecast_reads_past_shortest :
    (renderForecastCards raggedDaily false).length = 1
    ∧ 0 ∈ renderForecastIndices raggedDaily
    ∧ dailyMinLen raggedDaily = 0
    ∧ (renderForecastCards raggedDaily false).map DayCard.hi = [none] := by decide

/-- C2 (amended): `renderForecast` renders exactly
`min 5 d.time.length` day-cards in index order; every index it reads is
below the time sequence's length, and under the documented equal-length
invariant it is below every sequence's length (so it never indexes past
the shortest sequence).  Without that invariant the loop bound is the
time sequence only. -/
theorem renderForecast_truncation (d : Daily) (useF : Bool) :
    (renderForecastCards d useF).length = min 5 d.time.length
    ∧ (∀ i ∈ renderForecastIndices d, i < d.time.length)
    ∧ (dailyEqualLensB d = true → ∀ i ∈ renderForecastIndices d, i < dailyMinLen d) := by
  refine ⟨?_, ?_, ?_⟩
  · simp [renderForecastCards, renderForecastIndices]
  · intro i hi
    rw [renderForecastIndices, List.mem_range] at hi
    exact lt_of_lt_of_le hi (min_le_right _ _)
  · intro hEq i hi
    rw [renderForecastIndices, List.mem_range] at hi
    have hi' : i < d.time.length := lt_of_lt_of_le hi (min_le_right _ _)
    unfold dailyMinLen
    cases hpp : d.precipitation_probability_max with
    | none =>
        simp only [dailyEqualLensB, hpp, Bool.and_eq_true, beq_iff_eq, and_true] at hEq
        obtain ⟨⟨hmax, hmin2⟩, hwc⟩ := hEq
        simpa [hmax, hmin2, hwc, min_self] using hi'
    | some p =>
        simp only [dailyEqualLensB, hpp, Bool.and_eq_true, beq_iff_eq] at hEq
        obtain ⟨⟨⟨hmax, hmin2⟩, hwc⟩, hp⟩ := hEq
        simpa [hmax, hmin2, hwc, hp, min_self] using hi'

/-- Witness for C2 (amended): a seven-day equal-length response renders
exactly 5 cards and every read index is within every sequence. -/
theorem renderForecast_truncation_witness :
    (renderForecastCards sevenDayDaily false).length = 5
    ∧ (∀ i ∈ renderForecastIndices sevenDayDaily, i < sevenDayDaily.time.length)
    ∧ (∀ i ∈ renderForecastIndices sevenDayDaily, i < dailyMinLen sevenDayDaily) :=
  ⟨(renderForecast_truncation sevenDayDaily false).1.trans (by decide),
   (renderForecast_truncation sevenDayDaily false).2.1,
   (renderForecast_truncation sevenDayDaily false).2.2 (by decide)⟩

/-- C3: a geocode response with an absent or empty results list makes
`geocodeCity` return null (NotFound, not an error); the submit handler
then clears the current-conditions area, shows exactly
"City not found. Try again.", and issues no weather fetch. -/
theorem citySearch_notFound (st : DashState) (resp : GeoResponse)
    (wxNet : Except String WeatherResponse)
    (hcity : jsTrim st.inputValue ≠ "")
    (hok : resp.ok = true)
    (hres : resp.results = none ∨ resp.results = some []) :
    geocodeCity resp = Except.ok none
    ∧ (submitHandler st (Except.ok resp) wxNet).1.current = PanelContent.text ""
    ∧ (submitHandler st (Except.ok resp) wxNet).1.errorText = "City not found. Try again."
    ∧ (submitHandler st (Except.ok resp) wxNet).2
        = [NetworkCall.geocode (jsTrim st.inputValue)] := by
  have hg : geocodeCity resp = Except.ok none := by
    rcases hres with h | h <;> simp [geocodeCity, hok, h]
  refine ⟨hg, ?_, ?_, ?_⟩ <;> simp [submitHandler, geocodeCityRun, hg, hcity]

/-- Witness for C3: searching "Paris" against an empty results list. -/
theorem citySearch_notFound_witness :
    geocodeCity emptyGeoResponse = Except.ok none
    ∧ (submitHandler stParis (Except.ok emptyGeoResponse) (Except.error "down")).1.current
        = PanelContent.text ""
    ∧ (submitHandler stParis (Except.ok emptyGeoResponse) (Except.error "down")).1.errorText
        = "City not found. Try again."
    ∧ (submitHandler stParis (Except.ok emptyGeoResponse) (Except.error "down")).2
        = [NetworkCall.geocode (jsTrim stParis.inputValue)] :=
  citySearch_notFound stParis emptyGeoResponse (Except.error "down")
    (by decide) rfl (Or.inr rfl)

/-- C4: with a stored location, toggling the unit issues exactly one
weather fetch using the stored coordinates and the new unit (fahrenheit
when checked, celsius otherwise) and, when it succeeds, re-renders both
panels; the rendered current panel and every rendered day-card carry the
new unit's suffix. -/
theorem unitToggle_refetch (st : DashState) (loc : Loc)
    (wxNet : Except String WeatherResponse) (data : WeatherData)
    (hloc : st.lastLocation = some loc)
    (hwx : fetchWeatherResult wxNet = Except.ok data) :
    (unitToggleHandler st wxNet).2 =
      [NetworkCall.weather loc.latitude loc.longitude
        (if st.unitChecked then "fahrenheit" else "celsius")]
    ∧ (unitToggleHandler st wxNet).1.current
        = PanelContent.currentPanel (renderCurrent loc data st.unitChecked)
    ∧ (renderCurrent loc data st.unitChecked).unit
        = (if st.unitChecked then "°F" else "°C")
    ∧ (unitToggleHandler st wxNet).1.forecast
        = PanelContent.forecastPanel (renderForecastCards data.daily st.unitChecked)
    ∧ (∀ card ∈ renderForecastCards data.daily st.unitChecked,
        card.unit = (if st.unitChecked then "°F" else "°C")) := by
  refine ⟨?_, ?_, ?_, ?_, ?_⟩
  · simp [unitToggleHandler, hloc, hwx]
  · simp [unitToggleHandler, hloc, hwx]
  · simp [renderCurrent]
  · simp [unitToggleHandler, hloc, hwx]
  · intro card hc
    rw [renderForecastCards] at hc
    obtain ⟨i, hi, rfl⟩ := List.mem_map.mp hc
    simp [mkDayCard]

/-- Witness for C4: toggling to Fahrenheit with Paris stored. -/
theorem unitToggle_refetch_witness :
    (unitToggleHandler stWithLoc (Except.ok okWeatherResponse)).2 =
      [NetworkCall.weather locParis.latitude locParis.longitude
        (if stWithLoc.unitChecked then "fahrenheit" else "celsius")]
    ∧ (unitToggleHandler stWithLoc (Except.ok okWeatherResponse)).1.current
        = PanelContent.currentPanel (renderCurrent locParis sampleWeatherData stWithLoc.unitChecked)
    ∧ (renderCurrent locParis sampleWeatherData stWithLoc.unitChecked).unit
        = (if stWithLoc.unitChecked then "°F" else "°C")
    ∧ (unitToggleHandler stWithLoc (Except.ok okWeatherResponse)).1.forecast
        = PanelContent.forecastPanel (renderForecastCards sampleWeatherData.daily stWithLoc.unitChecked)
    ∧ (∀ card ∈ renderForecastCards sampleWeatherData.daily stWithLoc.unitChecked,
        card.unit = (if stWithLoc.unitChecked then "°F" else "°C")) :=
  unitToggle_refetch stWithLoc locParis (Except.ok okWeatherResponse) sampleWeatherData rfl rfl

/-- C5: when the weather fetch fails (transport error or non-success
status) after a successful geocode, the submit handler clears both
display areas and shows exactly "Something went wrong fetching weather.";
the handler is a total function, so no exception escapes it. -/
theorem citySearch_weatherFailure (st : DashState) (geoNet : Except String GeoResponse)
    (wxNet : Except String WeatherResponse) (loc : Loc) (e : String)
    (hcity : jsTrim st.inputValue ≠ "")
    (hgeo : geocodeCityRun geoNet = Except.ok (some loc))
    (hwx : fetchWeatherResult wxNet = Except.error e) :
    (submitHandler st geoNet wxNet).1.current = PanelContent.text ""
    ∧ (submitHandler st geoNet wxNet).1.forecast = PanelContent.text ""
    ∧ (submitHandler st geoNet wxNet).1.errorText
        = "Something went wrong fetching weather." := by
  refine ⟨?_, ?_, ?_⟩ <;> simp [submitHandler, hgeo, hwx, hcity, catchFetchError]

/-- Witness for C5: Paris geocodes but the weather endpoint returns 500. -/
theorem citySearch_weatherFailure_witness :
    (submitHandler stParis (Except.ok parisGeoResponse) (Except.ok failedWeatherResponse)).1.current
        = PanelContent.text ""
    ∧ (submitHandler stParis (Except.ok parisGeoResponse) (Except.ok failedWeatherResponse)).1.forecast
        = PanelContent.text ""
    ∧ (submitHandler stParis (Except.ok parisGeoResponse) (Except.ok failedWeatherResponse)).1.errorText
        = "Something went wrong fetching weather." :=
  citySearch_weatherFailure stParis (Except.ok parisGeoResponse)
    (Except.ok failedWeatherResponse) locParis "weather HTTP 500" (by decide) rfl rfl

/-- C6: in the geolocation flow (with the platform capability present, the
only case that disables the button), every completion path — successful
fetch-and-render, weather-fetch failure, or permission denial / platform
error including timeout — leaves the button enabled with its original
label "Use my location". -/
theorem geoBtn_always_restored (st : DashState) (outcome : GeoOutcome) :
    (geoBtnHandler st true outcome).1.geoBtnDisabled = false
    ∧ (geoBtnHandler st true outcome).1.geoBtnLabel = "Use my location" := by
  cases outcome with
  | position lat lon wxNet =>
      cases hwx : fetchWeatherResult wxNet with
      | ok data => constructor <;> simp [geoBtnHandler, hwx]
      | error e => constructor <;> simp [geoBtnHandler, hwx]
  | failure msg => constructor <;> simp [geoBtnHandler]

/-- C9: submitting the form with an input that is empty or all whitespace
is a complete no-op: the state (error text, both display areas, stored
location, everything) is returned unchanged and no network call is made. -/
theorem submit_blank_noop (st : DashState) (geoNet : Except String GeoResponse)
    (wxNet : Except String WeatherResponse)
    (hws : ∀ c ∈ st.inputValue.data, jsWhitespace c = true) :
    submitHandler st geoNet wxNet = (st, []) := by
  have h1 : st.inputValue.data.dropWhile jsWhitespace = [] :=
    List.dropWhile_eq_nil_iff.mpr hws
  have ht : jsTrim st.inputValue = "" := by simp [jsTrim, h1]
  simp [submitHandler, ht]

/-- Witness for C9: a three-space input changes nothing. -/
theorem submit_blank_noop_witness :
    submitHandler stBlank (Except.error "x") (Except.error "y") = (stBlank, []) :=
  submit_blank_noop stBlank (Except.error "x") (Except.error "y") (by decide)

/-- C10: in the geolocation flow, `lastLocation` is assigned only after
the weather fetch succeeds: if the fetch fails, the stored location keeps
its previous value, so a later unit toggle still uses the old
coordinates. -/
theorem geoFlow_keeps_lastLocation_on_failure (st : DashState) (lat lon : ℚ)
    (wxNet : Except String WeatherResponse) (e : String)
    (hwx : fetchWeatherResult wxNet = Except.error e) :
    (geoBtnHandler st true (GeoOutcome.position lat lon wxNet)).1.lastLocation
      = st.lastLocation := by
  simp [geoBtnHandler, hwx]

/-- Witness for C10: a 500 from the weather endpoint leaves the stored
location untouched. -/
theorem geoFlow_keeps_lastLocation_on_failure_witness :
    (geoBtnHandler stParis true
        (GeoOutcome.position 10 20 (Except.ok failedWeatherResponse))).1.lastLocation
      = stParis.lastLocation :=
  geoFlow_keeps_lastLocation_on_failure stParis 10 20
    (Except.ok failedWeatherResponse) "weather HTTP 500" rfl
